import Mathlib

/-
Verification development for the client-side video transcoding pipeline
implemented by the function compressVideo in src/script.js (lines 1-268).

The pipeline is event-driven browser code.  It is embedded shallowly:
  * the pure planning computations (output geometry, encoder format
    selection) become pure Lean functions over ℕ / ℚ, mirroring the
    JavaScript arithmetic (JS does exact arithmetic on these small
    integral values, so ℚ is a faithful carrier for the divisions);
  * the event handlers (ondataavailable, onstop, the drawing loop) become
    explicit functions of the observation sequences the browser feeds
    them, and the whole run becomes a function of an environment record
    describing how the browser answered each request of the pipeline;
  * real-time timers are modelled by the arrival times of the
    corresponding events measured in milliseconds.
-/

namespace Transcode

/-! ### Geometry planning (src/script.js lines 38-64)

The planning phase computes the output dimensions from the probed source
dimensions and the caller-supplied bound.  JS numbers on these values
behave like exact rationals, so the computation is carried out in ℚ and
rounded at the end exactly as `Math.floor(x / 2) * 2` does. -/

/-- The rounding step `Math.floor(x / 2) * 2` (src/script.js lines
60-61): round a dimension down to an even integer. -/
def evenFloor (q : ℚ) : ℤ := ⌊q / 2⌋ * 2

/-- The planning phase of compressVideo (src/script.js lines 38-64):
starting from the probed `videoWidth`/`videoHeight`, scale down only when
a dimension exceeds its bound, capping the longer dimension and deriving
the other from the aspect ratio, then round both down to even. -/
def computeGeometry (w h maxWidth maxHeight : ℕ) : ℤ × ℤ :=
  let aspect : ℚ := (w : ℚ) / (h : ℚ)
  if maxWidth < w ∨ maxHeight < h then
    if h < w then
      let w2 : ℚ := min (w : ℚ) (maxWidth : ℚ)
      (evenFloor w2, evenFloor (w2 / aspect))
    else
      let h2 : ℚ := min (h : ℚ) (maxHeight : ℚ)
      (evenFloor (h2 * aspect), evenFloor h2)
  else
    (evenFloor (w : ℚ), evenFloor (h : ℚ))

/-- The amended C1 property of the planned geometry: evenness, no
upscaling, the bound on the capped dimension, and aspect preservation up
to even rounding. -/
def GeometryPlanOk (w h maxWidth maxHeight : ℕ) : Prop :=
  Even (computeGeometry w h maxWidth maxHeight).1 ∧
  Even (computeGeometry w h maxWidth maxHeight).2 ∧
  (computeGeometry w h maxWidth maxHeight).1 ≤ (w : ℤ) ∧
  (computeGeometry w h maxWidth maxHeight).2 ≤ (h : ℤ) ∧
  ((w ≤ maxWidth ∧ h ≤ maxHeight) →
    (computeGeometry w h maxWidth maxHeight).1 ≤ (maxWidth : ℤ) ∧
    (computeGeometry w h maxWidth maxHeight).2 ≤ (maxHeight : ℤ)) ∧
  (h < w → (computeGeometry w h maxWidth maxHeight).1 ≤ (maxWidth : ℤ)) ∧
  (w ≤ h → (computeGeometry w h maxWidth maxHeight).2 ≤ (maxHeight : ℤ)) ∧
  ∃ wq hq : ℚ, wq * h = hq * w ∧
    (computeGeometry w h maxWidth maxHeight).1 = evenFloor wq ∧
    (computeGeometry w h maxWidth maxHeight).2 = evenFloor hq ∧
    wq - 2 < ((computeGeometry w h maxWidth maxHeight).1 : ℚ) ∧
    ((computeGeometry w h maxWidth maxHeight).1 : ℚ) ≤ wq ∧
    hq - 2 < ((computeGeometry w h maxWidth maxHeight).2 : ℚ) ∧
    ((computeGeometry w h maxWidth maxHeight).2 : ℚ) ≤ hq


/-! ### Encoder format selection (src/script.js lines 89-96) -/

def mimeVp9 : String := "video/webm;codecs=vp9"

def mimeVp8 : String := "video/webm;codecs=vp8"

/-- The untyped container used when no preferred codec is supported
(src/script.js line 94). -/
def fallbackMime : String := "video/webm"

/-- The ordered codec preference list, most preferred first. -/
def preferenceList : List String := [mimeVp9, mimeVp8]

/-- Encoder format selection (src/script.js lines 89-96), parametrised by
the runtime capability oracle `MediaRecorder.isTypeSupported`. -/
def selectMimeType (isTypeSupported : String → Bool) : String :=
  if isTypeSupported mimeVp9 then mimeVp9
  else if isTypeSupported mimeVp8 then mimeVp8
  else fallbackMime

/-! ### Chunk collection and the stop handler (src/script.js 109-161)

A chunk is modelled by its byte content.  `ondataavailable` appends the
data only when it is non-null and non-empty. -/

/-- One `ondataavailable` step (src/script.js lines 109-113): push the
event data when present and non-empty. -/
def pushChunk (chunks : List (List ℕ)) (data : Option (List ℕ)) : List (List ℕ) :=
  match data with
  | some d => if 0 < d.length then chunks ++ [d] else chunks
  | none => chunks

/-- The chunk list accumulated over a whole recording. -/
def recordedChunks (events : List (Option (List ℕ))) : List (List ℕ) :=
  events.foldl pushChunk []

/-- The value a successful run resolves with: the bytes of the final
Blob together with its container MIME type (src/script.js line 147).
The data URL produced by `FileReader.readAsDataURL` is determined by
exactly these two components, so the artifact is modelled by them. -/
structure OutputArtifact where
  bytes : List ℕ
  mimeType : String
deriving DecidableEq, Repr

/-- The `blob.size` of the artifact: its byte length. -/
def OutputArtifact.byteLength (a : OutputArtifact) : ℕ := a.bytes.length

/-! ### The drawing loop (src/script.js lines 171-206)

Each animation tick observes the state of the source video element.  The
loop ends when the source has ended, or is paused after playback started
and not seeking, or the frame copy throws; otherwise it draws when the
source is playing and forwards a throttled progress value. -/

/-- What one animation tick observes about the source element. -/
structure TickObs where
  now : ℤ
  currentTime : ℚ
  ended : Bool
  paused : Bool
  seeking : Bool
  drawError : Bool

/-- The throttled progress value
`Math.min((currentTime / duration) * 100, 99)` (src/script.js
line 194). -/
def progressValue (currentTime duration : ℚ) : ℚ :=
  min (currentTime / duration * 100) 99

/-- The drawing loop (src/script.js lines 171-206) over a sequence of
tick observations, threading `lastProgressTime` (initially 0), returning
the number of completed frame copies and the emitted progress values. -/
def drawLoop (dur : ℚ) : List TickObs → ℤ → ℕ × List ℚ
  | [], _ => (0, [])
  | t :: ts, last =>
    if t.ended = true ∨ (t.paused = true ∧ 0 < t.currentTime ∧ t.seeking = false) then
      (0, [])
    else if (t.paused = false ∧ t.ended = false) ∧ t.drawError = true then
      (0, [])
    else if 800 < t.now - last then
      ((if t.paused = false ∧ t.ended = false then 1 else 0) + (drawLoop dur ts t.now).1,
        progressValue t.currentTime dur :: (drawLoop dur ts t.now).2)
    else
      ((if t.paused = false ∧ t.ended = false then 1 else 0) + (drawLoop dur ts last).1,
        (drawLoop dur ts last).2)

/-! ### The whole run (src/script.js lines 2-268)

compressVideo returns a promise that settles exactly once.  The run is
embedded as a function of an environment record describing how the
browser answered each request of the pipeline, in program order: URL
creation (line 258), metadata loading against the 45000 ms timeout
(lines 20-32), audio routing (lines 69-87), capability probing (lines
89-96), recorder construction (line 107), playback start (lines
209-220), the tick observations of the drawing loop, a possible recorder
fault (lines 163-165), the chunk delivery events and the final blob
read-back (lines 142-161).  The first rejecting handler settles the
promise, which the cascade below mirrors. -/

/-- The 45000 ms metadata-load timeout (src/script.js lines 21-26). -/
def loadTimeoutMs : ℕ := 45000

/-- The constant `maxDuration = 300` (src/script.js line 235). -/
def maxDuration : ℕ := 300

/-- The product `maxDuration * 1000`, the recording ceiling timer delay
in milliseconds (src/script.js line 241). -/
def maxDurationMs : ℕ := maxDuration * 1000

/-- The reject reasons of compressVideo, one constructor per reject call
site:
  * `urlCreationFailed`  — line 265, `URL.createObjectURL` threw;
  * `mediaLoadError`     — line 253, the `error` event of the element;
  * `mediaLoadTimeout`   — line 24, metadata still absent at 45 s;
  * `setupFailure`       — line 244, the planning/setup block threw
                           (for example the recorder constructor);
  * `playbackStartError` — line 219, `video.play()` rejected;
  * `encodingError`      — line 164, the recorder reported an error;
  * `emptyOutput`        — line 143, recording produced no data;
  * `readError`          — line 158, reading the finished blob failed. -/
inductive PipelineError where
  | urlCreationFailed
  | mediaLoadError
  | mediaLoadTimeout
  | setupFailure
  | playbackStartError
  | encodingError
  | emptyOutput
  | readError
deriving DecidableEq, Repr

/-- Modelled from the spec: the error taxonomy of spec sections 4.1 and 7
(`MediaLoadTimeout`, `MediaLoadError`, `PlaybackStartError`,
`EncodingError`, `EmptyOutputError`), used to compare the reject reasons
of the code against the kinds the spec enumerates. -/
def specErrorTaxonomy (e : PipelineError) : Bool :=
  match e with
  | .mediaLoadTimeout => true
  | .mediaLoadError => true
  | .playbackStartError => true
  | .encodingError => true
  | .emptyOutput => true
  | _ => false

/-- The caller-facing parameters of compressVideo with their default
values (src/script.js line 2); the optional progress callback is
modelled by its presence. -/
structure Params where
  maxWidth : ℕ := 1920
  maxHeight : ℕ := 1080
  bitrate : ℕ := 6000000
  hasCallback : Bool := false
  fps : ℕ := 30
deriving DecidableEq, Repr

/-- The parameter record of a call that omits every optional argument. -/
def defaultParams : Params := {}

/-- The MediaRecorder options (src/script.js lines 101-105). -/
structure EncoderConfig where
  mimeType : String
  videoBitsPerSecond : ℕ
  audioBitsPerSecond : ℕ
deriving DecidableEq, Repr

/-- Observable actions and resource state of one run: which transient
resources were allocated and released, whether the recorder was started,
how many frames were drawn, and the values handed to the progress
callback. -/
structure RunLog where
  createdUrl : Bool := false
  revokedUrl : Bool := false
  audioCreated : Bool := false
  audioClosed : Bool := false
  rafCancelled : Bool := false
  srcDetached : Bool := false
  recorderStarted : Bool := false
  geometry : Option (ℤ × ℤ) := none
  config : Option EncoderConfig := none
  streamTracks : ℕ := 0
  drawCount : ℕ := 0
  progress : List ℚ := []
deriving DecidableEq, Repr

/-- How the browser answered each request of one run, in program order.
`metadataArrived`/`metadataAt` say whether and when (milliseconds after
the source was attached) the `loadedmetadata` event fired; the 45 s
timer of lines 21-26 wins whenever metadata is absent at its deadline. -/
structure Env where
  urlOk : Bool
  loadErrored : Bool
  metadataArrived : Bool
  metadataAt : ℕ
  metaW : ℕ
  metaH : ℕ
  metaDuration : ℚ
  audioCtxCreated : Bool
  audioTracksOk : Bool
  support : String → Bool
  recorderCtorOk : Bool
  playOk : Bool
  ticks : List TickObs
  recorderFaulted : Bool
  chunkEvents : List (Option (List ℕ))
  readerOk : Bool

/-- The onstop handler (src/script.js lines 115-161): report 100%,
release the transient resources, then reject when no chunk was
collected, otherwise read the blob back and resolve with it (or reject
with the read error). -/
def onstopHandler (p : Params) (mime : String) (env : Env) (lg : RunLog) :
    Except PipelineError OutputArtifact × RunLog :=
  (if (recordedChunks env.chunkEvents).isEmpty = true then
    .error .emptyOutput
  else if env.readerOk = true then
    .ok ⟨(recordedChunks env.chunkEvents).flatten, mime⟩
  else
    .error .readError,
  { lg with
    progress := if p.hasCallback then lg.progress ++ [100] else [],
    audioClosed := lg.audioCreated,
    rafCancelled := true,
    srcDetached := true,
    revokedUrl := true })

/-- The log after metadata loaded and the canvas, audio graph and stream
were set up (src/script.js lines 36-87). -/
def baseLog (p : Params) (env : Env) : RunLog :=
  { createdUrl := true,
    audioCreated := env.audioCtxCreated,
    geometry := some (computeGeometry env.metaW env.metaH p.maxWidth p.maxHeight),
    streamTracks := 1 + (if env.audioCtxCreated && env.audioTracksOk then 1 else 0) }

/-- The log just before the recorder stops: recorder constructed and
started (src/script.js lines 100-168) and the drawing loop done
(lines 171-220). -/
def preStopLog (p : Params) (env : Env) : RunLog :=
  let dur : ℚ := if env.metaDuration = 0 then 1 else env.metaDuration
  { baseLog p env with
    config := some ⟨selectMimeType env.support, p.bitrate, 128000⟩,
    recorderStarted := true,
    drawCount := (drawLoop dur env.ticks 0).1,
    progress := if p.hasCallback then (drawLoop dur env.ticks 0).2 else [] }

/-- The run from the metadata handler onward (src/script.js lines
28-246): plan geometry, set up audio best-effort, pick the format,
construct and start the recorder, play, drive the drawing loop, and
finish through the recorder handlers. -/
def setupAndRun (p : Params) (env : Env) :
    Except PipelineError OutputArtifact × RunLog :=
  if env.recorderCtorOk = false then
    (.error .setupFailure, baseLog p env)
  else if env.playOk = false then
    (.error .playbackStartError,
      { baseLog p env with
        config := some ⟨selectMimeType env.support, p.bitrate, 128000⟩,
        recorderStarted := true })
  else if env.recorderFaulted = true then
    (.error .encodingError, preStopLog p env)
  else
    onstopHandler p (selectMimeType env.support) env (preStopLog p env)

/-- The whole compressVideo run (src/script.js lines 2-268) as a
function of the environment: the settled outcome of the promise together
with the log of observable actions.  The 45 s timer (lines 21-26) only
rejects the promise: it does not detach `onloadedmetadata`, so when
metadata arrives at or after the deadline the handler still runs in
full — the recorder is started and the drawing loop executes as a
zombie run whose resolve/reject calls are no-ops on the already settled
promise.  The settled outcome of that branch stays the timeout
rejection while the log keeps the zombie actions. -/
def runPipelineFull (p : Params) (env : Env) :
    Except PipelineError OutputArtifact × RunLog :=
  if env.urlOk = false then
    (.error .urlCreationFailed, {})
  else if env.loadErrored = true then
    (.error .mediaLoadError, { createdUrl := true })
  else if env.metadataArrived = false then
    (.error .mediaLoadTimeout, { createdUrl := true })
  else if loadTimeoutMs ≤ env.metadataAt then
    (.error .mediaLoadTimeout, (setupAndRun p env).2)
  else
    setupAndRun p env

/-- A run reaches the stop handler when every phase before it succeeded:
the URL was created, metadata arrived inside the 45 s bound, the
recorder was constructed, playback started and the recorder reported no
fault. -/
def reachesStop (env : Env) : Prop :=
  env.urlOk = true ∧ env.loadErrored = false ∧
  env.metadataArrived = true ∧ env.metadataAt < loadTimeoutMs ∧
  env.recorderCtorOk = true ∧ env.playOk = true ∧ env.recorderFaulted = false

/-- A fully cooperative environment: every browser request succeeds, the
source is 640x480 and 10 s long, and one 3-byte chunk is delivered. -/
def happyEnv : Env :=
  { urlOk := true,
    loadErrored := false,
    metadataArrived := true,
    metadataAt := 0,
    metaW := 640,
    metaH := 480,
    metaDuration := 10,
    audioCtxCreated := true,
    audioTracksOk := true,
    support := fun _ => true,
    recorderCtorOk := true,
    playOk := true,
    ticks := [],
    recorderFaulted := false,
    chunkEvents := [some [1, 2, 3]],
    readerOk := true }

/-! ### The recording ceiling (src/script.js lines 234-241)

The stop requests of a run are timer driven: the termination conditions
of section 4.1 step 6 each request a stop at some instant, and line 236
installs an unconditional request at `startTime + maxDuration * 1000`.
The recorder stops at the earliest request. -/

/-- The instant the recorder stops: the earliest of the stop requests
issued by the termination conditions, where the ceiling timer of
src/script.js lines 234-241 always contributes
`startTime + maxDurationMs`. -/
def recorderStopTime (startTime : ℤ) (stopRequests : List ℤ) : ℤ :=
  stopRequests.foldr min (startTime + (maxDurationMs : ℤ))


/-! ### Lemmas about the planning and chunk computations -/

lemma evenFloor_le (q : ℚ) : (evenFloor q : ℚ) ≤ q := by
  unfold evenFloor
  push_cast
  have h := Int.floor_le (q / 2)
  linarith

lemma sub_two_lt_evenFloor (q : ℚ) : q - 2 < (evenFloor q : ℚ) := by
  unfold evenFloor
  push_cast
  have h := Int.sub_one_lt_floor (q / 2)
  linarith

lemma even_evenFloor (q : ℚ) : Even (evenFloor q) :=
  ⟨⌊q / 2⌋, by unfold evenFloor; ring⟩

lemma recordedChunks_pos (events : List (Option (List ℕ))) :
    ∀ c ∈ recordedChunks events, 0 < c.length := by
  have key : ∀ (es : List (Option (List ℕ))) (acc : List (List ℕ)),
      (∀ c ∈ acc, 0 < c.length) → ∀ c ∈ es.foldl pushChunk acc, 0 < c.length := by
    intro es
    induction es with
    | nil => intro acc hacc; simpa using hacc
    | cons e es ih =>
      intro acc hacc
      refine ih (pushChunk acc e) ?_
      intro c hc
      unfold pushChunk at hc
      match e with
      | none => exact hacc c hc
      | some d =>
        simp only at hc
        by_cases hd : 0 < d.length
        · rw [if_pos hd] at hc
          rcases List.mem_append.mp hc with h | h
          · exact hacc c h
          · rcases List.mem_singleton.mp h with rfl
            exact hd
        · rw [if_neg hd] at hc
          exact hacc c hc
  exact key events [] (by simp)

lemma join_length_pos (l : List (List ℕ)) (hne : l ≠ [])
    (hpos : ∀ c ∈ l, 0 < c.length) : 0 < l.flatten.length := by
  match l with
  | [] => exact absurd rfl hne
  | c :: rest =>
    have hc : 0 < c.length := hpos c (List.mem_cons_self c rest)
    simp [List.flatten]
    omega


/-! ### Path lemmas: each reject site settles the run (src/script.js) -/

lemma run_urlBad (p : Params) (env : Env) (h : env.urlOk = false) :
    runPipelineFull p env = (.error .urlCreationFailed, {}) := by
  unfold runPipelineFull
  rw [if_pos h]

lemma run_loadError (p : Params) (env : Env) (hu : env.urlOk = true)
    (h : env.loadErrored = true) :
    runPipelineFull p env = (.error .mediaLoadError, { createdUrl := true }) := by
  unfold runPipelineFull
  rw [if_neg (by simp [hu]), if_pos h]

lemma run_noMetadata (p : Params) (env : Env) (hu : env.urlOk = true)
    (hl : env.loadErrored = false) (h : env.metadataArrived = false) :
    runPipelineFull p env = (.error .mediaLoadTimeout, { createdUrl := true }) := by
  unfold runPipelineFull
  rw [if_neg (by simp [hu]), if_neg (by simp [hl]), if_pos h]

lemma run_lateMetadata (p : Params) (env : Env) (hu : env.urlOk = true)
    (hl : env.loadErrored = false) (hm : env.metadataArrived = true)
    (h : loadTimeoutMs ≤ env.metadataAt) :
    runPipelineFull p env = (.error .mediaLoadTimeout, (setupAndRun p env).2) := by
  unfold runPipelineFull
  rw [if_neg (by simp [hu]), if_neg (by simp [hl]), if_neg (by simp [hm]), if_pos h]

lemma run_passthrough (p : Params) (env : Env) (hu : env.urlOk = true)
    (hl : env.loadErrored = false) (hm : env.metadataArrived = true)
    (ht : env.metadataAt < loadTimeoutMs) :
    runPipelineFull p env = setupAndRun p env := by
  unfold runPipelineFull
  rw [if_neg (by simp [hu]), if_neg (by simp [hl]), if_neg (by simp [hm]),
    if_neg (Nat.not_le.mpr ht)]

lemma setup_ctorBad (p : Params) (env : Env) (h : env.recorderCtorOk = false) :
    setupAndRun p env = (.error .setupFailure, baseLog p env) := by
  unfold setupAndRun
  rw [if_pos h]

lemma setup_playBad (p : Params) (env : Env) (hc : env.recorderCtorOk = true)
    (h : env.playOk = false) :
    setupAndRun p env = (.error .playbackStartError,
      { baseLog p env with
        config := some ⟨selectMimeType env.support, p.bitrate, 128000⟩,
        recorderStarted := true }) := by
  unfold setupAndRun
  rw [if_neg (by simp [hc]), if_pos h]

lemma setup_fault (p : Params) (env : Env) (hc : env.recorderCtorOk = true)
    (hp : env.playOk = true) (hf : env.recorderFaulted = true) :
    setupAndRun p env = (.error .encodingError, preStopLog p env) := by
  unfold setupAndRun
  rw [if_neg (by simp [hc]), if_neg (by simp [hp]), if_pos hf]

lemma setup_noFault (p : Params) (env : Env) (hc : env.recorderCtorOk = true)
    (hp : env.playOk = true) (hf : env.recorderFaulted = false) :
    setupAndRun p env =
      onstopHandler p (selectMimeType env.support) env (preStopLog p env) := by
  unfold setupAndRun
  rw [if_neg (by simp [hc]), if_neg (by simp [hp]), if_neg (by simp [hf])]

lemma run_ctorBad (p : Params) (env : Env) (hu : env.urlOk = true)
    (hl : env.loadErrored = false) (hm : env.metadataArrived = true)
    (ht : env.metadataAt < loadTimeoutMs) (h : env.recorderCtorOk = false) :
    runPipelineFull p env = (.error .setupFailure, baseLog p env) := by
  rw [run_passthrough p env hu hl hm ht, setup_ctorBad p env h]

lemma run_playBad (p : Params) (env : Env) (hu : env.urlOk = true)
    (hl : env.loadErrored = false) (hm : env.metadataArrived = true)
    (ht : env.metadataAt < loadTimeoutMs) (hc : env.recorderCtorOk = true)
    (h : env.playOk = false) :
    runPipelineFull p env = (.error .playbackStartError,
      { baseLog p env with
        config := some ⟨selectMimeType env.support, p.bitrate, 128000⟩,
        recorderStarted := true }) := by
  rw [run_passthrough p env hu hl hm ht, setup_playBad p env hc h]

lemma run_fault (p : Params) (env : Env) (hu : env.urlOk = true)
    (hl : env.loadErrored = false) (hm : env.metadataArrived = true)
    (ht : env.metadataAt < loadTimeoutMs) (hc : env.recorderCtorOk = true)
    (hp : env.playOk = true) (hf : env.recorderFaulted = true) :
    runPipelineFull p env = (.error .encodingError, preStopLog p env) := by
  rw [run_passthrough p env hu hl hm ht, setup_fault p env hc hp hf]

lemma run_of_reaches (p : Params) (env : Env) (h : reachesStop env) :
    runPipelineFull p env =
      onstopHandler p (selectMimeType env.support) env (preStopLog p env) := by
  obtain ⟨hu, hl, hm, ht, hc, hp, hf⟩ := h
  rw [run_passthrough p env hu hl hm ht, setup_noFault p env hc hp hf]

lemma onstopHandler_snd (p : Params) (mime : String) (env : Env) (lg : RunLog) :
    (onstopHandler p mime env lg).2 =
      { lg with
        progress := if p.hasCallback then lg.progress ++ [100] else [],
        audioClosed := lg.audioCreated,
        rafCancelled := true,
        srcDetached := true,
        revokedUrl := true } := rfl

lemma onstopHandler_fst (p : Params) (mime : String) (env : Env) (lg : RunLog) :
    (onstopHandler p mime env lg).1 =
      if (recordedChunks env.chunkEvents).isEmpty = true then
        .error .emptyOutput
      else if env.readerOk = true then
        .ok ⟨(recordedChunks env.chunkEvents).flatten, mime⟩
      else
        .error .readError := rfl

lemma run_ok_elim (p : Params) (env : Env) (a : OutputArtifact)
    (h : (runPipelineFull p env).1 = .ok a) :
    reachesStop env ∧ (recordedChunks env.chunkEvents).isEmpty = false ∧
      env.readerOk = true ∧
      a = ⟨(recordedChunks env.chunkEvents).flatten, selectMimeType env.support⟩ := by
  have hu : env.urlOk = true := by
    rcases Bool.eq_false_or_eq_true env.urlOk with hb | hb
    · exact hb
    · rw [run_urlBad p env hb] at h; exact absurd h (by simp)
  have hl : env.loadErrored = false := by
    rcases Bool.eq_false_or_eq_true env.loadErrored with hb | hb
    · rw [run_loadError p env hu hb] at h; exact absurd h (by simp)
    · exact hb
  have hm : env.metadataArrived = true := by
    rcases Bool.eq_false_or_eq_true env.metadataArrived with hb | hb
    · exact hb
    · rw [run_noMetadata p env hu hl hb] at h; exact absurd h (by simp)
  have ht : env.metadataAt < loadTimeoutMs := by
    rcases Nat.lt_or_ge env.metadataAt loadTimeoutMs with hb | hb
    · exact hb
    · rw [run_lateMetadata p env hu hl hm hb] at h; exact absurd h (by simp)
  have hc : env.recorderCtorOk = true := by
    rcases Bool.eq_false_or_eq_true env.recorderCtorOk with hb | hb
    · exact hb
    · rw [run_ctorBad p env hu hl hm ht hb] at h; exact absurd h (by simp)
  have hp : env.playOk = true := by
    rcases Bool.eq_false_or_eq_true env.playOk with hb | hb
    · exact hb
    · rw [run_playBad p env hu hl hm ht hc hb] at h; exact absurd h (by simp)
  have hf : env.recorderFaulted = false := by
    rcases Bool.eq_false_or_eq_true env.recorderFaulted with hb | hb
    · rw [run_fault p env hu hl hm ht hc hp hb] at h; exact absurd h (by simp)
    · exact hb
  have hreach : reachesStop env := ⟨hu, hl, hm, ht, hc, hp, hf⟩
  rw [run_of_reaches p env hreach, onstopHandler_fst] at h
  refine ⟨hreach, ?_⟩
  split at h
  · exact absurd h (by simp)
  · rename_i hchunks
    split at h
    · rename_i hreader
      refine ⟨by simpa using hchunks, hreader, ?_⟩
      simpa using h.symm
    · exact absurd h (by simp)

/-! ### Claim C1: geometry planning -/


lemma evenFloor_le_int (q : ℚ) (n : ℕ) (h : q ≤ (n : ℚ)) :
    evenFloor q ≤ (n : ℤ) := by
  have := (evenFloor_le q).trans h
  exact_mod_cast this

/-- C1: for every probed source dimension pair and caller bound, the
planned output dimensions preserve the source aspect ratio within
integer-rounding tolerance (they are the even-floor of an exactly
proportional rational pair, each moved by less than 2), are both even,
and never exceed the source dimensions; the caller bound, however, is
only guaranteed for the capped dimension — the width when the source is
landscape, the height otherwise — and for both dimensions when no
scaling triggers.  (Amended from the claim, whose two-sided bound fails;
see the counterexample.) -/
theorem c1_theorem (w h maxWidth maxHeight : ℕ) (hw : 0 < w) (hh : 0 < h) :
    GeometryPlanOk w h maxWidth maxHeight := by
  have hwQ : (0 : ℚ) < w := by exact_mod_cast hw
  have hhQ : (0 : ℚ) < h := by exact_mod_cast hh
  have haspect : (0 : ℚ) < (w : ℚ) / h := div_pos hwQ hhQ
  by_cases htrig : maxWidth < w ∨ maxHeight < h
  · by_cases hor : h < w
    · -- scaled, landscape: cap the width, derive the height
      have hg : computeGeometry w h maxWidth maxHeight =
          (evenFloor (min (w : ℚ) maxWidth),
           evenFloor (min (w : ℚ) maxWidth / ((w : ℚ) / h))) := by
        unfold computeGeometry
        rw [if_pos htrig, if_pos hor]
      have hmul : (h : ℚ) * ((w : ℚ) / h) = w := by field_simp
      set wq : ℚ := min (w : ℚ) maxWidth with hwqdef
      set hq : ℚ := wq / ((w : ℚ) / h) with hhqdef
      have hwq_le_w : wq ≤ (w : ℚ) := min_le_left _ _
      have hwq_le_m : wq ≤ (maxWidth : ℚ) := min_le_right _ _
      have hq_le_h : hq ≤ (h : ℚ) := by
        rw [hhqdef, div_le_iff₀ haspect]
        exact hwq_le_w.trans (le_of_eq hmul.symm)
      have haeq : wq * (h : ℚ) = hq * w := by
        rw [hhqdef]
        field_simp
      refine ⟨?_, ?_, ?_, ?_, ?_, ?_, ?_, wq, hq, haeq, ?_, ?_, ?_, ?_, ?_, ?_⟩
      · rw [hg]; exact even_evenFloor _
      · rw [hg]; exact even_evenFloor _
      · rw [hg]; exact evenFloor_le_int _ _ hwq_le_w
      · rw [hg]; exact evenFloor_le_int _ _ hq_le_h
      · rintro ⟨h1, h2⟩; rcases htrig with ht | ht <;> omega
      · intro _; rw [hg]; exact evenFloor_le_int _ _ hwq_le_m
      · intro hle; exact absurd hle (by omega)
      · rw [hg]
      · rw [hg]
      · rw [hg]; exact sub_two_lt_evenFloor wq
      · rw [hg]; exact evenFloor_le wq
      · rw [hg]; exact sub_two_lt_evenFloor hq
      · rw [hg]; exact evenFloor_le hq
    · -- scaled, portrait or square: cap the height, derive the width
      have hg : computeGeometry w h maxWidth maxHeight =
          (evenFloor (min (h : ℚ) maxHeight * ((w : ℚ) / h)),
           evenFloor (min (h : ℚ) maxHeight)) := by
        unfold computeGeometry
        rw [if_pos htrig, if_neg hor]
      have hmul : (h : ℚ) * ((w : ℚ) / h) = w := by field_simp
      set hq : ℚ := min (h : ℚ) maxHeight with hhqdef
      set wq : ℚ := hq * ((w : ℚ) / h) with hwqdef
      have hq_le_h : hq ≤ (h : ℚ) := min_le_left _ _
      have hq_le_m : hq ≤ (maxHeight : ℚ) := min_le_right _ _
      have hwq_le_w : wq ≤ (w : ℚ) := by
        rw [hwqdef]
        calc hq * ((w : ℚ) / h) ≤ (h : ℚ) * ((w : ℚ) / h) :=
              mul_le_mul_of_nonneg_right hq_le_h haspect.le
          _ = w := hmul
      have haeq : wq * (h : ℚ) = hq * w := by
        rw [hwqdef]
        field_simp
      refine ⟨?_, ?_, ?_, ?_, ?_, ?_, ?_, wq, hq, haeq, ?_, ?_, ?_, ?_, ?_, ?_⟩
      · rw [hg]; exact even_evenFloor _
      · rw [hg]; exact even_evenFloor _
      · rw [hg]; exact evenFloor_le_int _ _ hwq_le_w
      · rw [hg]; exact evenFloor_le_int _ _ hq_le_h
      · rintro ⟨h1, h2⟩; rcases htrig with ht | ht <;> omega
      · intro hlt; exact absurd hlt hor
      · intro _; rw [hg]; exact evenFloor_le_int _ _ hq_le_m
      · rw [hg]
      · rw [hg]
      · rw [hg]; exact sub_two_lt_evenFloor wq
      · rw [hg]; exact evenFloor_le wq
      · rw [hg]; exact sub_two_lt_evenFloor hq
      · rw [hg]; exact evenFloor_le hq
  · -- below the bound: keep the source dimensions
    have hg : computeGeometry w h maxWidth maxHeight =
        (evenFloor (w : ℚ), evenFloor (h : ℚ)) := by
      unfold computeGeometry
      rw [if_neg htrig]
    push_neg at htrig
    obtain ⟨hbw, hbh⟩ := htrig
    refine ⟨?_, ?_, ?_, ?_, ?_, ?_, ?_, (w : ℚ), (h : ℚ), by ring, ?_, ?_, ?_, ?_, ?_, ?_⟩
    · rw [hg]; exact even_evenFloor _
    · rw [hg]; exact even_evenFloor _
    · rw [hg]; exact evenFloor_le_int _ _ le_rfl
    · rw [hg]; exact evenFloor_le_int _ _ le_rfl
    · intro _
      constructor
      · rw [hg]; exact evenFloor_le_int _ _ (by exact_mod_cast hbw)
      · rw [hg]; exact evenFloor_le_int _ _ (by exact_mod_cast hbh)
    · intro _; rw [hg]; exact evenFloor_le_int _ _ (by exact_mod_cast hbw)
    · intro _; rw [hg]; exact evenFloor_le_int _ _ (by exact_mod_cast hbh)
    · rw [hg]
    · rw [hg]
    · rw [hg]; exact sub_two_lt_evenFloor _
    · rw [hg]; exact evenFloor_le _
    · rw [hg]; exact sub_two_lt_evenFloor _
    · rw [hg]; exact evenFloor_le _

/-- C1 counterexample: for source 100x200 under bound (50, 300) the
code caps only the height, leaving the output width 100 above
min(w, maxWidth) = 50, refuting the claimed bound
`output.1 ≤ min w maxWidth`. -/
theorem c1_counterexample : computeGeometry 100 200 50 300 = (100, 200) ∧
    ¬((computeGeometry 100 200 50 300).1 ≤ ((min 100 50 : ℕ) : ℤ)) := by
  constructor <;> norm_num [computeGeometry, evenFloor]

/-- C1 witness: the amended statement at source 3840x2160 under bound
(1920, 1080). -/
theorem c1_witness : GeometryPlanOk 3840 2160 1920 1080 :=
  c1_theorem 3840 2160 1920 1080 (by norm_num) (by norm_num)

/-! ### Claim C3: progress reporting -/

lemma progressValue_le (c d : ℚ) : progressValue c d ≤ 99 := min_le_right _ _

lemma progressValue_mono (d : ℚ) (hd : 0 < d) {a b : ℚ} (hab : a ≤ b) :
    progressValue a d ≤ progressValue b d := by
  unfold progressValue
  refine min_le_min ?_ le_rfl
  gcongr

lemma drawLoop_mem (dur : ℚ) :
    ∀ (ts : List TickObs) (last : ℤ) (x : ℚ),
      x ∈ (drawLoop dur ts last).2 →
      ∃ t ∈ ts, x = progressValue t.currentTime dur := by
  intro ts
  induction ts with
  | nil =>
    intro last x hx
    simp [drawLoop] at hx
  | cons t ts ih =>
    intro last x hx
    unfold drawLoop at hx
    split at hx
    · simp at hx
    · split at hx
      · simp at hx
      · split at hx
        · rcases List.mem_cons.mp hx with rfl | hx2
          · exact ⟨t, List.mem_cons_self t ts, rfl⟩
          · obtain ⟨u, hu, hux⟩ := ih t.now x hx2
            exact ⟨u, List.mem_cons_of_mem t hu, hux⟩
        · obtain ⟨u, hu, hux⟩ := ih last x hx
          exact ⟨u, List.mem_cons_of_mem t hu, hux⟩

lemma drawLoop_sorted (dur : ℚ) (hd : 0 < dur) :
    ∀ (ts : List TickObs) (last : ℤ),
      ts.Pairwise (fun u v => u.currentTime ≤ v.currentTime) →
      (drawLoop dur ts last).2.Pairwise (· ≤ ·) := by
  intro ts
  induction ts with
  | nil =>
    intro last _
    simp [drawLoop]
  | cons t ts ih =>
    intro last hp
    rw [List.pairwise_cons] at hp
    obtain ⟨hall, hp2⟩ := hp
    unfold drawLoop
    split
    · simp
    · split
      · simp
      · split
        · show (progressValue t.currentTime dur ::
              (drawLoop dur ts t.now).2).Pairwise (· ≤ ·)
          rw [List.pairwise_cons]
          refine ⟨?_, ih t.now hp2⟩
          intro x hx
          obtain ⟨u, hu, rfl⟩ := drawLoop_mem dur ts t.now x hx
          exact progressValue_mono dur hd (hall u hu)
        · exact ih last hp2

/-- C3: in a successful run with a progress callback, when the source
plays forward (non-decreasing `currentTime` over the ticks) and its
reported duration is non-negative, the values handed to the callback are
non-decreasing, every value before the final one is at most 99, and the
final value is exactly 100. -/
theorem c3_theorem (p : Params) (env : Env) (a : OutputArtifact)
    (hcb : p.hasCallback = true)
    (hok : (runPipelineFull p env).1 = Except.ok a)
    (hmono : env.ticks.Pairwise (fun u v => u.currentTime ≤ v.currentTime))
    (hdur : 0 ≤ env.metaDuration) :
    ((runPipelineFull p env).2.progress).Pairwise (· ≤ ·) ∧
    (∀ x ∈ ((runPipelineFull p env).2.progress).dropLast, x ≤ 99) ∧
    ((runPipelineFull p env).2.progress).getLast? = some 100 := by
  obtain ⟨hreach, -, -, -⟩ := run_ok_elim p env a hok
  have hdpos : (0 : ℚ) < (if env.metaDuration = 0 then 1 else env.metaDuration) := by
    split
    · norm_num
    · rename_i hne
      exact lt_of_le_of_ne hdur (Ne.symm hne)
  have hprog : (runPipelineFull p env).2.progress =
      (drawLoop (if env.metaDuration = 0 then 1 else env.metaDuration) env.ticks 0).2
        ++ [100] := by
    rw [run_of_reaches p env hreach, onstopHandler_snd]
    simp [preStopLog, hcb]
  rw [hprog]
  refine ⟨?_, ?_, ?_⟩
  · rw [List.pairwise_append]
    refine ⟨drawLoop_sorted _ hdpos env.ticks 0 hmono, List.pairwise_singleton _ _, ?_⟩
    intro x hx y hy
    rcases List.mem_singleton.mp hy with rfl
    obtain ⟨u, hu, rfl⟩ := drawLoop_mem _ env.ticks 0 x hx
    have := progressValue_le u.currentTime
      (if env.metaDuration = 0 then 1 else env.metaDuration)
    linarith
  · rw [List.dropLast_concat]
    intro x hx
    obtain ⟨u, hu, rfl⟩ := drawLoop_mem _ env.ticks 0 x hx
    exact progressValue_le _ _
  · exact List.getLast?_concat _

/-- C3 witness: the property at a fully cooperative environment with a
callback present. -/
theorem c3_witness :
    ((runPipelineFull { hasCallback := true } happyEnv).2.progress).Pairwise (· ≤ ·) ∧
    (∀ x ∈ ((runPipelineFull { hasCallback := true } happyEnv).2.progress).dropLast,
      x ≤ 99) ∧
    ((runPipelineFull { hasCallback := true } happyEnv).2.progress).getLast? =
      some 100 :=
  c3_theorem { hasCallback := true } happyEnv ⟨[1, 2, 3], mimeVp9⟩ rfl rfl
    List.Pairwise.nil (by norm_num [happyEnv])

/-! ### Claims C2 and C4-C10 -/


/-- C2 (amended): in a run that reaches the stop handler, if at least one
non-empty chunk was collected and reading back the finished blob
succeeds, the run resolves with an artifact of positive byte length; if
zero chunks were collected it rejects with the empty-output error; and
no run ever resolves with a zero-byte artifact.  (Amended from the
claim: a blob read-back failure rejects even when chunks exist; see the
counterexample.) -/
theorem c2_theorem (p : Params) (env : Env) (h : reachesStop env) :
    ((recordedChunks env.chunkEvents ≠ [] ∧ env.readerOk = true) →
      ∃ a, (runPipelineFull p env).1 = .ok a ∧ 0 < a.byteLength) ∧
    (recordedChunks env.chunkEvents = [] →
      (runPipelineFull p env).1 = .error .emptyOutput) ∧
    (∀ a, (runPipelineFull p env).1 = .ok a → 0 < a.byteLength) := by
  rw [run_of_reaches p env h, onstopHandler_fst]
  refine ⟨?_, ?_, ?_⟩
  · rintro ⟨hne, hr⟩
    rw [if_neg (by simp [hne]), if_pos hr]
    exact ⟨_, rfl, join_length_pos _ hne (recordedChunks_pos _)⟩
  · intro hempty
    rw [if_pos (by simp [hempty])]
  · intro a ha
    split at ha
    · exact absurd ha (by simp)
    · rename_i hchunks
      split at ha
      · have ha2 : a = ⟨(recordedChunks env.chunkEvents).flatten,
            selectMimeType env.support⟩ := by
          simpa using ha.symm
        rw [ha2]
        exact join_length_pos _ (by simpa using hchunks) (recordedChunks_pos _)
      · exact absurd ha (by simp)

/-- C2 counterexample: a run that collects one non-empty chunk but whose
final `FileReader` read fails rejects (src/script.js lines 156-159)
instead of resolving, refuting the claim that one collected chunk
guarantees success. -/
theorem c2_counterexample :
    recordedChunks (Env.chunkEvents { happyEnv with readerOk := false }) ≠ [] ∧
    (runPipelineFull defaultParams { happyEnv with readerOk := false }).1 =
      .error .readError :=
  ⟨by decide, rfl⟩

/-- C2 witness: the amended statement at the cooperative environment. -/
theorem c2_witness :
    ∃ a, (runPipelineFull defaultParams happyEnv).1 = .ok a ∧ 0 < a.byteLength :=
  (c2_theorem defaultParams happyEnv
      ⟨rfl, rfl, rfl, by decide, rfl, rfl, rfl⟩).1 ⟨by decide, rfl⟩

/-- C4 (amended): whenever metadata probing does not complete within the
45000 ms bound, the run rejects with the media-load-timeout error; when
the metadata event never fires at all, the run additionally draws no
frame and never starts the recorder.  When metadata arrives only at or
after the deadline, the rejection stands but the undetached metadata
handler still runs (see the counterexample), so no-drawing is guaranteed
only in the never-arrives case.  (Amended from the claim.) -/
theorem c4_theorem (p : Params) (env : Env)
    (hu : env.urlOk = true) (hl : env.loadErrored = false)
    (h : env.metadataArrived = false ∨ loadTimeoutMs ≤ env.metadataAt) :
    (runPipelineFull p env).1 = .error .mediaLoadTimeout ∧
    (env.metadataArrived = false →
      (runPipelineFull p env).2.drawCount = 0 ∧
      (runPipelineFull p env).2.recorderStarted = false) := by
  rcases Bool.eq_false_or_eq_true env.metadataArrived with hm | hm
  · have hlate : loadTimeoutMs ≤ env.metadataAt := by
      rcases h with h | h
      · rw [hm] at h; exact absurd h (by simp)
      · exact h
    rw [run_lateMetadata p env hu hl hm hlate]
    exact ⟨rfl, fun hfalse => absurd (hm.symm.trans hfalse) (by simp)⟩
  · rw [run_noMetadata p env hu hl hm]
    exact ⟨rfl, fun _ => ⟨rfl, rfl⟩⟩

/-- C4 counterexample: metadata arriving exactly at the 45 s deadline
leaves the promise rejected with the timeout error, yet the undetached
handler still starts the recorder and draws a frame (src/script.js
lines 21-26 only reject; lines 168 and 209-211 still run), refuting the
claim that such a run performs no drawing or encoding. -/
theorem c4_counterexample :
    (runPipelineFull defaultParams
        { happyEnv with
            metadataAt := loadTimeoutMs,
            ticks := [⟨900, 1, false, false, false, false⟩] }).1 =
      .error .mediaLoadTimeout ∧
    (runPipelineFull defaultParams
        { happyEnv with
            metadataAt := loadTimeoutMs,
            ticks := [⟨900, 1, false, false, false, false⟩] }).2.recorderStarted =
      true ∧
    (runPipelineFull defaultParams
        { happyEnv with
            metadataAt := loadTimeoutMs,
            ticks := [⟨900, 1, false, false, false, false⟩] }).2.drawCount = 1 :=
  ⟨rfl, rfl, rfl⟩

/-- C4 witness: the amended statement for a source whose metadata never
arrives. -/
theorem c4_witness :
    (runPipelineFull defaultParams { happyEnv with metadataArrived := false }).1 =
      .error .mediaLoadTimeout ∧
    (runPipelineFull defaultParams
        { happyEnv with metadataArrived := false }).2.drawCount = 0 ∧
    (runPipelineFull defaultParams
        { happyEnv with metadataArrived := false }).2.recorderStarted = false :=
  ⟨(c4_theorem defaultParams { happyEnv with metadataArrived := false }
      rfl rfl (Or.inl rfl)).1,
   (c4_theorem defaultParams { happyEnv with metadataArrived := false }
      rfl rfl (Or.inl rfl)).2 rfl⟩

/-- C6 (amended): on success the run resolves with the concatenated
chunk bytes tagged with the selected container MIME type and a positive
byte length; on failure it rejects with an error kind from the spec
taxonomy or with one of the three remaining reject reasons of the code
(URL creation failure, setup-phase exception, blob read failure) that
the taxonomy does not cover.  (Amended from the claim; see the
counterexample.) -/
theorem c6_theorem (p : Params) (env : Env) :
    (∀ a, (runPipelineFull p env).1 = .ok a →
      a.mimeType = selectMimeType env.support ∧
      a.bytes = (recordedChunks env.chunkEvents).flatten ∧
      a.byteLength = a.bytes.length ∧ 0 < a.byteLength) ∧
    (∀ e, (runPipelineFull p env).1 = .error e →
      specErrorTaxonomy e = true ∨ e = .urlCreationFailed ∨ e = .setupFailure ∨
        e = .readError) := by
  constructor
  · intro a hok
    obtain ⟨hreach, hch, hrd, ha⟩ := run_ok_elim p env a hok
    rw [ha]
    refine ⟨rfl, rfl, rfl, ?_⟩
    exact join_length_pos _ (by simpa using hch) (recordedChunks_pos _)
  · intro e _
    cases e <;> simp [specErrorTaxonomy]

/-- C6 counterexample: the blob read failure rejects with an error that
is not one of the five specified kinds, refuting the claim that every
failure carries a specified kind. -/
theorem c6_counterexample :
    (runPipelineFull defaultParams { happyEnv with readerOk := false }).1 =
      .error .readError ∧
    specErrorTaxonomy .readError = false :=
  ⟨rfl, rfl⟩

/-- C6 witness: the success half at the cooperative environment. -/
theorem c6_witness :
    (⟨[1, 2, 3], mimeVp9⟩ : OutputArtifact).mimeType = selectMimeType happyEnv.support ∧
    (⟨[1, 2, 3], mimeVp9⟩ : OutputArtifact).bytes =
      (recordedChunks happyEnv.chunkEvents).flatten ∧
    (⟨[1, 2, 3], mimeVp9⟩ : OutputArtifact).byteLength =
      (⟨[1, 2, 3], mimeVp9⟩ : OutputArtifact).bytes.length ∧
    0 < (⟨[1, 2, 3], mimeVp9⟩ : OutputArtifact).byteLength :=
  (c6_theorem defaultParams happyEnv).1 ⟨[1, 2, 3], mimeVp9⟩ rfl

lemma foldr_min_le (init : ℤ) (l : List ℤ) : l.foldr min init ≤ init := by
  induction l with
  | nil => exact le_refl _
  | cons a l ih => exact le_trans (min_le_right _ _) ih

/-- C7: the recorder stop instant never exceeds
`startTime + maxDuration * 1000` with `maxDuration = 300` seconds, and
even a run with no natural termination request stops exactly at that
ceiling, so no run records unboundedly — in particular a source longer
than the ceiling is truncated there. -/
theorem c7_theorem (startTime : ℤ) (stopRequests : List ℤ) :
    recorderStopTime startTime stopRequests ≤ startTime + (maxDurationMs : ℤ) ∧
    (stopRequests = [] →
      recorderStopTime startTime stopRequests = startTime + (maxDurationMs : ℤ)) ∧
    maxDurationMs = maxDuration * 1000 ∧ maxDuration = 300 := by
  refine ⟨foldr_min_le _ _, ?_, rfl, rfl⟩
  intro h
  rw [h]
  rfl

/-- C7 witness: with no natural stop request the recorder stops exactly
at the ceiling. -/
theorem c7_witness :
    recorderStopTime 0 [] = 0 + (maxDurationMs : ℤ) :=
  (c7_theorem 0 []).2.1 rfl

/-- C8 (amended): on every exit path that reaches the stop handler —
success, empty-output rejection and read-failure rejection — the
temporary URL is revoked, the source handle detached, the animation loop
cancelled, and the audio context closed exactly when one was created.
On the early failure paths (load error, load timeout, playback failure,
setup exception, recorder error) the code rejects without this cleanup.
(Amended from the claim; see the counterexample.) -/
theorem c8_theorem (p : Params) (env : Env) (h : reachesStop env) :
    (runPipelineFull p env).2.revokedUrl = true ∧
    (runPipelineFull p env).2.srcDetached = true ∧
    (runPipelineFull p env).2.rafCancelled = true ∧
    (runPipelineFull p env).2.audioClosed = (runPipelineFull p env).2.audioCreated := by
  rw [run_of_reaches p env h, onstopHandler_snd]
  exact ⟨rfl, rfl, rfl, rfl⟩

/-- C8 counterexample: on the load-error exit path the temporary URL was
created but is never revoked (src/script.js lines 248-254), refuting
cleanup on every exit path. -/
theorem c8_counterexample :
    (runPipelineFull defaultParams { happyEnv with loadErrored := true }).1 =
      .error .mediaLoadError ∧
    (runPipelineFull defaultParams { happyEnv with loadErrored := true }).2.createdUrl
      = true ∧
    (runPipelineFull defaultParams { happyEnv with loadErrored := true }).2.revokedUrl
      = false :=
  ⟨rfl, rfl, rfl⟩

/-- C8 witness: the amended statement at the cooperative environment. -/
theorem c8_witness :
    (runPipelineFull defaultParams happyEnv).2.revokedUrl = true ∧
    (runPipelineFull defaultParams happyEnv).2.srcDetached = true ∧
    (runPipelineFull defaultParams happyEnv).2.rafCancelled = true ∧
    (runPipelineFull defaultParams happyEnv).2.audioClosed =
      (runPipelineFull defaultParams happyEnv).2.audioCreated :=
  c8_theorem defaultParams happyEnv ⟨rfl, rfl, rfl, by decide, rfl, rfl, rfl⟩

lemma setup_streamTracks (p : Params) (env : Env) :
    (setupAndRun p env).2.streamTracks =
      1 + (if env.audioCtxCreated && env.audioTracksOk then 1 else 0) := by
  rcases Bool.eq_false_or_eq_true env.recorderCtorOk with h5 | h5
  case inr => rw [setup_ctorBad p env h5]; rfl
  rcases Bool.eq_false_or_eq_true env.playOk with h6 | h6
  case inr => rw [setup_playBad p env h5 h6]; rfl
  rcases Bool.eq_false_or_eq_true env.recorderFaulted with h7 | h7
  case inl => rw [setup_fault p env h5 h6 h7]; rfl
  rw [setup_noFault p env h5 h6 h7, onstopHandler_snd]
  rfl

lemma setup_fst_audio (p : Params) (env : Env) (a b : Bool) :
    (setupAndRun p { env with audioCtxCreated := a, audioTracksOk := b }).1 =
      (setupAndRun p env).1 := by
  rcases Bool.eq_false_or_eq_true env.recorderCtorOk with h5 | h5
  case inr =>
    rw [setup_ctorBad p { env with audioCtxCreated := a, audioTracksOk := b } h5,
      setup_ctorBad p env h5]
  rcases Bool.eq_false_or_eq_true env.playOk with h6 | h6
  case inr =>
    rw [setup_playBad p { env with audioCtxCreated := a, audioTracksOk := b } h5 h6,
      setup_playBad p env h5 h6]
  rcases Bool.eq_false_or_eq_true env.recorderFaulted with h7 | h7
  case inl =>
    rw [setup_fault p { env with audioCtxCreated := a, audioTracksOk := b } h5 h6 h7,
      setup_fault p env h5 h6 h7]
  rw [setup_noFault p { env with audioCtxCreated := a, audioTracksOk := b } h5 h6 h7,
    setup_noFault p env h5 h6 h7]
  rfl

lemma setupAndRun_hasCallback (p : Params) (env : Env) :
    (setupAndRun { p with hasCallback := false } env).1 =
      (setupAndRun { p with hasCallback := true } env).1 ∧
    (setupAndRun { p with hasCallback := false } env).2 =
      { (setupAndRun { p with hasCallback := true } env).2 with progress := [] } := by
  rcases Bool.eq_false_or_eq_true env.recorderCtorOk with h5 | h5
  case inr =>
    rw [setup_ctorBad { p with hasCallback := false } env h5,
      setup_ctorBad { p with hasCallback := true } env h5]
    exact ⟨rfl, rfl⟩
  rcases Bool.eq_false_or_eq_true env.playOk with h6 | h6
  case inr =>
    rw [setup_playBad { p with hasCallback := false } env h5 h6,
      setup_playBad { p with hasCallback := true } env h5 h6]
    exact ⟨rfl, rfl⟩
  rcases Bool.eq_false_or_eq_true env.recorderFaulted with h7 | h7
  case inl =>
    rw [setup_fault { p with hasCallback := false } env h5 h6 h7,
      setup_fault { p with hasCallback := true } env h5 h6 h7]
    exact ⟨rfl, rfl⟩
  rw [setup_noFault { p with hasCallback := false } env h5 h6 h7,
    setup_noFault { p with hasCallback := true } env h5 h6 h7]
  exact ⟨rfl, rfl⟩

lemma run_streamTracks (p : Params) (env : Env) :
    (runPipelineFull p env).2.streamTracks = 0 ∨
    (runPipelineFull p env).2.streamTracks =
      1 + (if env.audioCtxCreated && env.audioTracksOk then 1 else 0) := by
  rcases Bool.eq_false_or_eq_true env.urlOk with h1 | h1
  case inr => rw [run_urlBad p env h1]; exact Or.inl rfl
  rcases Bool.eq_false_or_eq_true env.loadErrored with h2 | h2
  case inl => rw [run_loadError p env h1 h2]; exact Or.inl rfl
  rcases Bool.eq_false_or_eq_true env.metadataArrived with h3 | h3
  case inr => rw [run_noMetadata p env h1 h2 h3]; exact Or.inl rfl
  rcases Nat.lt_or_ge env.metadataAt loadTimeoutMs with h4 | h4
  case inr =>
    rw [run_lateMetadata p env h1 h2 h3 h4]
    exact Or.inr (setup_streamTracks p env)
  rw [run_passthrough p env h1 h2 h3 h4]
  exact Or.inr (setup_streamTracks p env)

/-- C9: the settled outcome of a run is unchanged by how audio routing
went — audio extraction failure is never fatal and never by itself
rejects — and a run whose audio-track extraction failed feeds the
recorder a stream with at most the single canvas video track. -/
theorem c9_theorem (p : Params) (env : Env) (a b : Bool) :
    (runPipelineFull p { env with audioCtxCreated := a, audioTracksOk := b }).1 =
      (runPipelineFull p env).1 ∧
    (runPipelineFull p { env with audioTracksOk := false }).2.streamTracks ≤ 1 := by
  constructor
  · rcases Bool.eq_false_or_eq_true env.urlOk with h1 | h1
    case inr =>
      rw [run_urlBad p { env with audioCtxCreated := a, audioTracksOk := b } h1,
        run_urlBad p env h1]
    rcases Bool.eq_false_or_eq_true env.loadErrored with h2 | h2
    case inl =>
      rw [run_loadError p { env with audioCtxCreated := a, audioTracksOk := b } h1 h2,
        run_loadError p env h1 h2]
    rcases Bool.eq_false_or_eq_true env.metadataArrived with h3 | h3
    case inr =>
      rw [run_noMetadata p { env with audioCtxCreated := a, audioTracksOk := b } h1 h2 h3,
        run_noMetadata p env h1 h2 h3]
    rcases Nat.lt_or_ge env.metadataAt loadTimeoutMs with h4 | h4
    case inr =>
      rw [run_lateMetadata p
          { env with audioCtxCreated := a, audioTracksOk := b } h1 h2 h3 h4,
        run_lateMetadata p env h1 h2 h3 h4]
    rw [run_passthrough p
        { env with audioCtxCreated := a, audioTracksOk := b } h1 h2 h3 h4,
      run_passthrough p env h1 h2 h3 h4]
    exact setup_fst_audio p env a b
  · rcases run_streamTracks p { env with audioTracksOk := false } with hP | hP <;>
      rw [hP] <;> simp

/-- C10: omitting every optional argument gives maxWidth 1920,
maxHeight 1080, bitrate 6000000, fps 30 and a null progress callback;
and a run without the callback settles identically to one with it,
differing only in that no progress value is reported. -/
theorem c10_theorem :
    defaultParams.maxWidth = 1920 ∧ defaultParams.maxHeight = 1080 ∧
    defaultParams.bitrate = 6000000 ∧ defaultParams.fps = 30 ∧
    defaultParams.hasCallback = false ∧
    ∀ (p : Params) (env : Env),
      (runPipelineFull { p with hasCallback := false } env).1 =
        (runPipelineFull { p with hasCallback := true } env).1 ∧
      (runPipelineFull { p with hasCallback := false } env).2.progress = [] ∧
      (runPipelineFull { p with hasCallback := false } env).2 =
        { (runPipelineFull { p with hasCallback := true } env).2 with
            progress := [] } := by
  refine ⟨rfl, rfl, rfl, rfl, rfl, ?_⟩
  intro p env
  rcases Bool.eq_false_or_eq_true env.urlOk with h1 | h1
  case inr =>
    rw [run_urlBad { p with hasCallback := false } env h1,
      run_urlBad { p with hasCallback := true } env h1]
    exact ⟨rfl, rfl, rfl⟩
  rcases Bool.eq_false_or_eq_true env.loadErrored with h2 | h2
  case inl =>
    rw [run_loadError { p with hasCallback := false } env h1 h2,
      run_loadError { p with hasCallback := true } env h1 h2]
    exact ⟨rfl, rfl, rfl⟩
  rcases Bool.eq_false_or_eq_true env.metadataArrived with h3 | h3
  case inr =>
    rw [run_noMetadata { p with hasCallback := false } env h1 h2 h3,
      run_noMetadata { p with hasCallback := true } env h1 h2 h3]
    exact ⟨rfl, rfl, rfl⟩
  rcases Nat.lt_or_ge env.metadataAt loadTimeoutMs with h4 | h4
  case inr =>
    rw [run_lateMetadata { p with hasCallback := false } env h1 h2 h3 h4,
      run_lateMetadata { p with hasCallback := true } env h1 h2 h3 h4]
    obtain ⟨hfst, hsnd⟩ := setupAndRun_hasCallback p env
    exact ⟨rfl, by rw [hsnd], by rw [hsnd]⟩
  rw [run_passthrough { p with hasCallback := false } env h1 h2 h3 h4,
    run_passthrough { p with hasCallback := true } env h1 h2 h3 h4]
  obtain ⟨hfst, hsnd⟩ := setupAndRun_hasCallback p env
  exact ⟨hfst, by rw [hsnd], hsnd⟩

/-- C5: encoder format selection returns the first entry of the ordered
preference list (vp9 then vp8) that the runtime supports, and the
generic container otherwise; and when the runtime supports no preferred
codec, any environment that succeeds under full support still succeeds
with the same bytes under the generic fallback container. -/
theorem c5_theorem (s : String → Bool) :
    selectMimeType s = ((preferenceList.find? fun m => s m).getD fallbackMime) ∧
    ((∀ m ∈ preferenceList, s m = false) →
      selectMimeType s = fallbackMime ∧
      ∀ (p : Params) (env : Env) (a : OutputArtifact),
        (runPipelineFull p env).1 = .ok a →
        ∃ b, (runPipelineFull p { env with support := s }).1 = .ok b ∧
          b.mimeType = fallbackMime ∧ b.bytes = a.bytes) := by
  constructor
  · by_cases h9 : s mimeVp9
    · simp [selectMimeType, preferenceList, h9]
    · by_cases h8 : s mimeVp8
      · simp [selectMimeType, preferenceList, h9, h8]
      · simp [selectMimeType, preferenceList, h9, h8]
  · intro hns
    have h9 : s mimeVp9 = false := hns _ (by simp [preferenceList])
    have h8 : s mimeVp8 = false := hns _ (by simp [preferenceList])
    have hsel : selectMimeType s = fallbackMime := by
      unfold selectMimeType
      rw [h9, h8]
      simp
    refine ⟨hsel, ?_⟩
    intro p env a hok
    obtain ⟨hreach, hch, hrd, ha⟩ := run_ok_elim p env a hok
    have hreach2 : reachesStop { env with support := s } := hreach
    rw [run_of_reaches _ _ hreach2, onstopHandler_fst]
    rw [if_neg (by simp [hch]), if_pos hrd]
    refine ⟨_, rfl, hsel, ?_⟩
    rw [ha]

/-- C5 witness: a runtime supporting nothing still yields a successful
run with the fallback container. -/
theorem c5_witness :
    selectMimeType (fun _ => false) = fallbackMime ∧
    ∃ b, (runPipelineFull defaultParams
        { happyEnv with support := fun _ => false }).1 = .ok b ∧
      b.mimeType = fallbackMime ∧ b.bytes = [1, 2, 3] :=
  ⟨((c5_theorem (fun _ => false)).2 (by intro m _; rfl)).1,
   ((c5_theorem (fun _ => false)).2 (by intro m _; rfl)).2 defaultParams happyEnv
     ⟨[1, 2, 3], mimeVp9⟩ rfl⟩

end Transcode
